import Mathlib

/-
Verification of the PCI subsystem of the aero kernel
(src/aero_kernel/src/drivers/pci.rs): the configuration-space accessor
(PciHeader), the Base Address Register decoder (get_bar), the
classification tables (DeviceType.new, Vendor.new), and the enumeration
engine (init).

Machine integers are modelled as Nat with explicit reductions modulo
2 ^ 32 where overflow matters.  The bit_field crate operations used by the
source (get_bit, get_bits, set_bits) are embedded below; set_bits carries
the crate assertion that the value fits into the bit range, so it returns
an Option (none models the assertion failure, which is a Rust panic).
-/

set_option maxHeartbeats 1000000
set_option maxRecDepth 100000

/-- Embedding of bit_field get_bits: extract bits [a, b) of x, shifted down
to position 0.  For x < 2 ^ 32 and b ≤ 32 this is exactly
(x << (32 - b)) >> (32 - b) >> a from the crate. -/
def getBits (x a b : Nat) : Nat :=
  (x % 2 ^ b) >>> a

/-- Embedding of bit_field set_bits on a w-bit integer, without the fits
assertion: clear bits [a, b) of x and or in v shifted to position a. -/
def setBitsT (w x a b v : Nat) : Nat :=
  (x &&& ((2 ^ w - 1) ^^^ ((2 ^ (b - a) - 1) <<< a))) ||| ((v % 2 ^ (b - a)) <<< a)

/-- Embedding of bit_field set_bits on a w-bit integer, including the crate
assertion that the value fits into the bit range; none models the panic. -/
def setBits (w x a b v : Nat) : Option Nat :=
  if v % 2 ^ (b - a) = v then some (setBitsT w x a b v) else none

/-- Rust u32 trailing_zeros, fuel-based: trailing_zeros of 0 is 32. -/
def tzAux : Nat → Nat → Nat
  | 0, _ => 0
  | fuel + 1, x => if x % 2 = 1 then 0 else tzAux fuel (x / 2) + 1

/-- Rust u32 trailing_zeros. -/
def u32_trailing_zeros (x : Nat) : Nat :=
  tzAux 32 (x % 2 ^ 32)

/-- Rust expression 1u32 << sh with debug overflow semantics: a shift
amount of 32 or more is an overflowing shift, modelled as none (panic). -/
def u32_shl1 (sh : Nat) : Option Nat :=
  if sh < 32 then some ((1 <<< sh) % 2 ^ 32) else none

/-- Decoded Base Address Register, from enum Bar in pci.rs.  The source
variant named IO is rendered Io here. -/
inductive Bar where
  | Memory32 (address size : Nat) (prefetchable : Bool)
  | Memory64 (address size : Nat) (prefetchable : Bool)
  | Io (address : Nat)
deriving DecidableEq

/-- Device-type taxonomy, from enum DeviceType in pci.rs. -/
inductive DeviceType where
  | Unknown
  | LegacyVgaCompatible
  | LegacyNotVgaCompatible
  | ScsiBusController
  | IdeController
  | FloppyController
  | IpiBusController
  | RaidController
  | AtaController
  | SataController
  | SasController
  | OtherMassStorageController
  | EthernetController
  | TokenRingController
  | FddiController
  | AtmController
  | IsdnController
  | PicmgController
  | OtherNetworkController
  | VgaCompatibleController
  | XgaController
  | ThreeDController
  | OtherDisplayController
  | VideoDevice
  | AudioDevice
  | TelephonyDevice
  | OtherMultimediaDevice
  | RamController
  | FlashController
  | OtherMemoryController
  | HostBridge
  | IsaBridge
  | EisaBridge
  | McaBridge
  | PciPciBridge
  | PcmciaBridge
  | NuBusBridge
  | CardBusBridge
  | RacewayBridge
  | SemiTransparentPciPciBridge
  | InfinibandPciHostBridge
  | OtherBridgeDevice
  | SerialController
  | ParallelPort
  | MultiportSerialController
  | Modem
  | GpibController
  | SmartCard
  | OtherCommunicationsDevice
  | InterruptController
  | DmaController
  | SystemTimer
  | RtcController
  | GenericPciHotPlugController
  | SdHostController
  | OtherSystemPeripheral
  | KeyboardController
  | Digitizer
  | MouseController
  | ScannerController
  | GameportController
  | OtherInputController
  | GenericDockingStation
  | OtherDockingStation
  | Processor386
  | Processor486
  | ProcessorPentium
  | ProcessorAlpha
  | ProcessorPowerPc
  | ProcessorMips
  | CoProcessor
  | FirewireController
  | AccessBusController
  | SsaBusController
  | UsbController
  | FibreChannelController
  | SmBusController
  | InfiniBandController
  | IpmiController
  | SercosController
  | CanBusController
  | IrdaController
  | ConsumerIrController
  | RfController
  | BluetoothController
  | BroadbandController
  | Ethernet5GHzController
  | Ethernet24GHzController
  | OtherWirelessController
  | IntelligentIoController
  | TvSatelliteCommunicationsController
  | AudioSatelliteCommunicationsController
  | VoiceSatelliteCommunicationsController
  | DataSatelliteCommunicationsController
  | NetworkCryptionController
  | EntertainmentCryptionController
  | OtherCryptionController
  | DpioModule
  | PerformanceCounter
  | CommunicationsSynchronizationController
  | ManagementCard
  | OtherSignalProcessingController
deriving DecidableEq

/-- DeviceType::new from pci.rs: classify a (base class, sub class) pair.
The source is a Rust match over literal pairs with a catch-all arm; it is
rendered here as the equivalent first-match equality chain, one test per
match arm in source order, with the catch-all as the final else. -/
def DeviceType.new (base_class sub_class : Nat) : DeviceType :=
  if (base_class, sub_class) = (0x00, 0x00) then DeviceType.LegacyNotVgaCompatible
  else if (base_class, sub_class) = (0x00, 0x01) then DeviceType.LegacyVgaCompatible
  else if (base_class, sub_class) = (0x01, 0x00) then DeviceType.ScsiBusController
  else if (base_class, sub_class) = (0x01, 0x01) then DeviceType.IdeController
  else if (base_class, sub_class) = (0x01, 0x02) then DeviceType.FloppyController
  else if (base_class, sub_class) = (0x01, 0x03) then DeviceType.IpiBusController
  else if (base_class, sub_class) = (0x01, 0x04) then DeviceType.RaidController
  else if (base_class, sub_class) = (0x01, 0x05) then DeviceType.AtaController
  else if (base_class, sub_class) = (0x01, 0x06) then DeviceType.SataController
  else if (base_class, sub_class) = (0x01, 0x07) then DeviceType.SasController
  else if (base_class, sub_class) = (0x01, 0x80) then DeviceType.OtherMassStorageController
  else if (base_class, sub_class) = (0x02, 0x00) then DeviceType.EthernetController
  else if (base_class, sub_class) = (0x02, 0x01) then DeviceType.TokenRingController
  else if (base_class, sub_class) = (0x02, 0x02) then DeviceType.FddiController
  else if (base_class, sub_class) = (0x02, 0x03) then DeviceType.AtmController
  else if (base_class, sub_class) = (0x02, 0x04) then DeviceType.IsdnController
  else if (base_class, sub_class) = (0x02, 0x06) then DeviceType.PicmgController
  else if (base_class, sub_class) = (0x02, 0x80) then DeviceType.OtherNetworkController
  else if (base_class, sub_class) = (0x03, 0x00) then DeviceType.VgaCompatibleController
  else if (base_class, sub_class) = (0x03, 0x01) then DeviceType.XgaController
  else if (base_class, sub_class) = (0x03, 0x02) then DeviceType.ThreeDController
  else if (base_class, sub_class) = (0x03, 0x80) then DeviceType.OtherDisplayController
  else if (base_class, sub_class) = (0x04, 0x00) then DeviceType.VideoDevice
  else if (base_class, sub_class) = (0x04, 0x01) then DeviceType.AudioDevice
  else if (base_class, sub_class) = (0x04, 0x02) then DeviceType.TelephonyDevice
  else if (base_class, sub_class) = (0x04, 0x03) then DeviceType.OtherMultimediaDevice
  else if (base_class, sub_class) = (0x05, 0x00) then DeviceType.RamController
  else if (base_class, sub_class) = (0x05, 0x01) then DeviceType.FlashController
  else if (base_class, sub_class) = (0x05, 0x02) then DeviceType.OtherMemoryController
  else if (base_class, sub_class) = (0x06, 0x00) then DeviceType.HostBridge
  else if (base_class, sub_class) = (0x06, 0x01) then DeviceType.IsaBridge
  else if (base_class, sub_class) = (0x06, 0x02) then DeviceType.EisaBridge
  else if (base_class, sub_class) = (0x06, 0x03) then DeviceType.McaBridge
  else if (base_class, sub_class) = (0x06, 0x04) then DeviceType.PciPciBridge
  else if (base_class, sub_class) = (0x06, 0x05) then DeviceType.PcmciaBridge
  else if (base_class, sub_class) = (0x06, 0x06) then DeviceType.NuBusBridge
  else if (base_class, sub_class) = (0x06, 0x07) then DeviceType.CardBusBridge
  else if (base_class, sub_class) = (0x06, 0x08) then DeviceType.RacewayBridge
  else if (base_class, sub_class) = (0x06, 0x09) then DeviceType.SemiTransparentPciPciBridge
  else if (base_class, sub_class) = (0x06, 0x0a) then DeviceType.InfinibandPciHostBridge
  else if (base_class, sub_class) = (0x06, 0x80) then DeviceType.OtherBridgeDevice
  else if (base_class, sub_class) = (0x07, 0x00) then DeviceType.SerialController
  else if (base_class, sub_class) = (0x07, 0x01) then DeviceType.ParallelPort
  else if (base_class, sub_class) = (0x07, 0x02) then DeviceType.MultiportSerialController
  else if (base_class, sub_class) = (0x07, 0x03) then DeviceType.Modem
  else if (base_class, sub_class) = (0x07, 0x04) then DeviceType.GpibController
  else if (base_class, sub_class) = (0x07, 0x05) then DeviceType.SmartCard
  else if (base_class, sub_class) = (0x07, 0x80) then DeviceType.OtherCommunicationsDevice
  else if (base_class, sub_class) = (0x08, 0x00) then DeviceType.InterruptController
  else if (base_class, sub_class) = (0x08, 0x01) then DeviceType.DmaController
  else if (base_class, sub_class) = (0x08, 0x02) then DeviceType.SystemTimer
  else if (base_class, sub_class) = (0x08, 0x03) then DeviceType.RtcController
  else if (base_class, sub_class) = (0x08, 0x04) then DeviceType.GenericPciHotPlugController
  else if (base_class, sub_class) = (0x08, 0x05) then DeviceType.SdHostController
  else if (base_class, sub_class) = (0x08, 0x80) then DeviceType.OtherSystemPeripheral
  else if (base_class, sub_class) = (0x09, 0x00) then DeviceType.KeyboardController
  else if (base_class, sub_class) = (0x09, 0x01) then DeviceType.Digitizer
  else if (base_class, sub_class) = (0x09, 0x02) then DeviceType.MouseController
  else if (base_class, sub_class) = (0x09, 0x03) then DeviceType.ScannerController
  else if (base_class, sub_class) = (0x09, 0x04) then DeviceType.GameportController
  else if (base_class, sub_class) = (0x09, 0x80) then DeviceType.OtherInputController
  else if (base_class, sub_class) = (0x0a, 0x00) then DeviceType.GenericDockingStation
  else if (base_class, sub_class) = (0x0a, 0x80) then DeviceType.OtherDockingStation
  else if (base_class, sub_class) = (0x0b, 0x00) then DeviceType.Processor386
  else if (base_class, sub_class) = (0x0b, 0x01) then DeviceType.Processor486
  else if (base_class, sub_class) = (0x0b, 0x02) then DeviceType.ProcessorPentium
  else if (base_class, sub_class) = (0x0b, 0x10) then DeviceType.ProcessorAlpha
  else if (base_class, sub_class) = (0x0b, 0x20) then DeviceType.ProcessorPowerPc
  else if (base_class, sub_class) = (0x0b, 0x30) then DeviceType.ProcessorMips
  else if (base_class, sub_class) = (0x0b, 0x40) then DeviceType.CoProcessor
  else if (base_class, sub_class) = (0x0c, 0x00) then DeviceType.FirewireController
  else if (base_class, sub_class) = (0x0c, 0x01) then DeviceType.AccessBusController
  else if (base_class, sub_class) = (0x0c, 0x02) then DeviceType.SsaBusController
  else if (base_class, sub_class) = (0x0c, 0x03) then DeviceType.UsbController
  else if (base_class, sub_class) = (0x0c, 0x04) then DeviceType.FibreChannelController
  else if (base_class, sub_class) = (0x0c, 0x05) then DeviceType.SmBusController
  else if (base_class, sub_class) = (0x0c, 0x06) then DeviceType.InfiniBandController
  else if (base_class, sub_class) = (0x0c, 0x07) then DeviceType.IpmiController
  else if (base_class, sub_class) = (0x0c, 0x08) then DeviceType.SercosController
  else if (base_class, sub_class) = (0x0c, 0x09) then DeviceType.CanBusController
  else if (base_class, sub_class) = (0x0d, 0x00) then DeviceType.IrdaController
  else if (base_class, sub_class) = (0x0d, 0x01) then DeviceType.ConsumerIrController
  else if (base_class, sub_class) = (0x0d, 0x10) then DeviceType.RfController
  else if (base_class, sub_class) = (0x0d, 0x11) then DeviceType.BluetoothController
  else if (base_class, sub_class) = (0x0d, 0x12) then DeviceType.BroadbandController
  else if (base_class, sub_class) = (0x0d, 0x20) then DeviceType.Ethernet5GHzController
  else if (base_class, sub_class) = (0x0d, 0x21) then DeviceType.Ethernet24GHzController
  else if (base_class, sub_class) = (0x0d, 0x80) then DeviceType.OtherWirelessController
  else if (base_class, sub_class) = (0x0e, 0x00) then DeviceType.IntelligentIoController
  else if (base_class, sub_class) = (0x0f, 0x00) then DeviceType.TvSatelliteCommunicationsController
  else if (base_class, sub_class) = (0x0f, 0x01) then DeviceType.AudioSatelliteCommunicationsController
  else if (base_class, sub_class) = (0x0f, 0x02) then DeviceType.VoiceSatelliteCommunicationsController
  else if (base_class, sub_class) = (0x0f, 0x03) then DeviceType.DataSatelliteCommunicationsController
  else if (base_class, sub_class) = (0x10, 0x00) then DeviceType.NetworkCryptionController
  else if (base_class, sub_class) = (0x10, 0x10) then DeviceType.EntertainmentCryptionController
  else if (base_class, sub_class) = (0x10, 0x80) then DeviceType.OtherCryptionController
  else if (base_class, sub_class) = (0x11, 0x00) then DeviceType.DpioModule
  else if (base_class, sub_class) = (0x11, 0x01) then DeviceType.PerformanceCounter
  else if (base_class, sub_class) = (0x11, 0x10) then DeviceType.CommunicationsSynchronizationController
  else if (base_class, sub_class) = (0x11, 0x20) then DeviceType.ManagementCard
  else if (base_class, sub_class) = (0x11, 0x80) then DeviceType.OtherSignalProcessingController
  else DeviceType.Unknown

/-- The classification table of DeviceType.new as an association list: one
entry per non-default match arm of the source. -/
def deviceTypeTable : List ((Nat × Nat) × DeviceType) :=
  [ ((0x00, 0x00), DeviceType.LegacyNotVgaCompatible),
    ((0x00, 0x01), DeviceType.LegacyVgaCompatible),
    ((0x01, 0x00), DeviceType.ScsiBusController),
    ((0x01, 0x01), DeviceType.IdeController),
    ((0x01, 0x02), DeviceType.FloppyController),
    ((0x01, 0x03), DeviceType.IpiBusController),
    ((0x01, 0x04), DeviceType.RaidController),
    ((0x01, 0x05), DeviceType.AtaController),
    ((0x01, 0x06), DeviceType.SataController),
    ((0x01, 0x07), DeviceType.SasController),
    ((0x01, 0x80), DeviceType.OtherMassStorageController),
    ((0x02, 0x00), DeviceType.EthernetController),
    ((0x02, 0x01), DeviceType.TokenRingController),
    ((0x02, 0x02), DeviceType.FddiController),
    ((0x02, 0x03), DeviceType.AtmController),
    ((0x02, 0x04), DeviceType.IsdnController),
    ((0x02, 0x06), DeviceType.PicmgController),
    ((0x02, 0x80), DeviceType.OtherNetworkController),
    ((0x03, 0x00), DeviceType.VgaCompatibleController),
    ((0x03, 0x01), DeviceType.XgaController),
    ((0x03, 0x02), DeviceType.ThreeDController),
    ((0x03, 0x80), DeviceType.OtherDisplayController),
    ((0x04, 0x00), DeviceType.VideoDevice),
    ((0x04, 0x01), DeviceType.AudioDevice),
    ((0x04, 0x02), DeviceType.TelephonyDevice),
    ((0x04, 0x03), DeviceType.OtherMultimediaDevice),
    ((0x05, 0x00), DeviceType.RamController),
    ((0x05, 0x01), DeviceType.FlashController),
    ((0x05, 0x02), DeviceType.OtherMemoryController),
    ((0x06, 0x00), DeviceType.HostBridge),
    ((0x06, 0x01), DeviceType.IsaBridge),
    ((0x06, 0x02), DeviceType.EisaBridge),
    ((0x06, 0x03), DeviceType.McaBridge),
    ((0x06, 0x04), DeviceType.PciPciBridge),
    ((0x06, 0x05), DeviceType.PcmciaBridge),
    ((0x06, 0x06), DeviceType.NuBusBridge),
    ((0x06, 0x07), DeviceType.CardBusBridge),
    ((0x06, 0x08), DeviceType.RacewayBridge),
    ((0x06, 0x09), DeviceType.SemiTransparentPciPciBridge),
    ((0x06, 0x0a), DeviceType.InfinibandPciHostBridge),
    ((0x06, 0x80), DeviceType.OtherBridgeDevice),
    ((0x07, 0x00), DeviceType.SerialController),
    ((0x07, 0x01), DeviceType.ParallelPort),
    ((0x07, 0x02), DeviceType.MultiportSerialController),
    ((0x07, 0x03), DeviceType.Modem),
    ((0x07, 0x04), DeviceType.GpibController),
    ((0x07, 0x05), DeviceType.SmartCard),
    ((0x07, 0x80), DeviceType.OtherCommunicationsDevice),
    ((0x08, 0x00), DeviceType.InterruptController),
    ((0x08, 0x01), DeviceType.DmaController),
    ((0x08, 0x02), DeviceType.SystemTimer),
    ((0x08, 0x03), DeviceType.RtcController),
    ((0x08, 0x04), DeviceType.GenericPciHotPlugController),
    ((0x08, 0x05), DeviceType.SdHostController),
    ((0x08, 0x80), DeviceType.OtherSystemPeripheral),
    ((0x09, 0x00), DeviceType.KeyboardController),
    ((0x09, 0x01), DeviceType.Digitizer),
    ((0x09, 0x02), DeviceType.MouseController),
    ((0x09, 0x03), DeviceType.ScannerController),
    ((0x09, 0x04), DeviceType.GameportController),
    ((0x09, 0x80), DeviceType.OtherInputController),
    ((0x0a, 0x00), DeviceType.GenericDockingStation),
    ((0x0a, 0x80), DeviceType.OtherDockingStation),
    ((0x0b, 0x00), DeviceType.Processor386),
    ((0x0b, 0x01), DeviceType.Processor486),
    ((0x0b, 0x02), DeviceType.ProcessorPentium),
    ((0x0b, 0x10), DeviceType.ProcessorAlpha),
    ((0x0b, 0x20), DeviceType.ProcessorPowerPc),
    ((0x0b, 0x30), DeviceType.ProcessorMips),
    ((0x0b, 0x40), DeviceType.CoProcessor),
    ((0x0c, 0x00), DeviceType.FirewireController),
    ((0x0c, 0x01), DeviceType.AccessBusController),
    ((0x0c, 0x02), DeviceType.SsaBusController),
    ((0x0c, 0x03), DeviceType.UsbController),
    ((0x0c, 0x04), DeviceType.FibreChannelController),
    ((0x0c, 0x05), DeviceType.SmBusController),
    ((0x0c, 0x06), DeviceType.InfiniBandController),
    ((0x0c, 0x07), DeviceType.IpmiController),
    ((0x0c, 0x08), DeviceType.SercosController),
    ((0x0c, 0x09), DeviceType.CanBusController),
    ((0x0d, 0x00), DeviceType.IrdaController),
    ((0x0d, 0x01), DeviceType.ConsumerIrController),
    ((0x0d, 0x10), DeviceType.RfController),
    ((0x0d, 0x11), DeviceType.BluetoothController),
    ((0x0d, 0x12), DeviceType.BroadbandController),
    ((0x0d, 0x20), DeviceType.Ethernet5GHzController),
    ((0x0d, 0x21), DeviceType.Ethernet24GHzController),
    ((0x0d, 0x80), DeviceType.OtherWirelessController),
    ((0x0e, 0x00), DeviceType.IntelligentIoController),
    ((0x0f, 0x00), DeviceType.TvSatelliteCommunicationsController),
    ((0x0f, 0x01), DeviceType.AudioSatelliteCommunicationsController),
    ((0x0f, 0x02), DeviceType.VoiceSatelliteCommunicationsController),
    ((0x0f, 0x03), DeviceType.DataSatelliteCommunicationsController),
    ((0x10, 0x00), DeviceType.NetworkCryptionController),
    ((0x10, 0x10), DeviceType.EntertainmentCryptionController),
    ((0x10, 0x80), DeviceType.OtherCryptionController),
    ((0x11, 0x00), DeviceType.DpioModule),
    ((0x11, 0x01), DeviceType.PerformanceCounter),
    ((0x11, 0x10), DeviceType.CommunicationsSynchronizationController),
    ((0x11, 0x20), DeviceType.ManagementCard),
    ((0x11, 0x80), DeviceType.OtherSignalProcessingController) ]

/-- Vendor taxonomy, from enum Vendor in pci.rs. -/
inductive Vendor where
  | Intel
  | AMD
  | NVIDIA
  | Qemu
  | Unknown (id : Nat)
deriving DecidableEq

/-- Vendor::new from pci.rs: classify a raw vendor id. -/
def Vendor.new (id : Nat) : Vendor :=
  match id with
  | 0x8086 => Vendor.Intel
  | 0x1022 => Vendor.AMD
  | 0x10DE => Vendor.NVIDIA
  | 0x1234 => Vendor.Qemu
  | _ => Vendor.Unknown id

/-- Recovery function witnessing that Vendor classification is lossless:
each named variant stands for exactly one well-known raw id, and the
catch-all variant carries the raw id itself.  Modelled from the spec
sentence that the raw ID is always recoverable from the result. -/
def Vendor.rawId : Vendor → Nat
  | Vendor.Intel => 0x8086
  | Vendor.AMD => 0x1022
  | Vendor.NVIDIA => 0x10DE
  | Vendor.Qemu => 0x1234
  | Vendor.Unknown id => id

/-- PciHeader from pci.rs: a packed (function, device, bus) word. -/
structure PciHeader where
  val : Nat
deriving DecidableEq

/-- PciHeader::new from pci.rs.  The source builds the word with four
bit_field set_bits calls on a u32; each carries the crate assertion that
the value fits into the range, so the result is an Option (none models the
assertion panic). -/
def PciHeader.new (bus device function : Nat) : Option PciHeader := do
  let r0 : Nat := 0
  let r1 ← setBits 32 r0 0 3 function
  let r2 ← setBits 32 r1 3 8 device
  let r3 ← setBits 32 r2 8 16 bus
  let r4 ← setBits 32 r3 16 32 0
  pure { val := r4 }

/-- PciHeader::bus from pci.rs. -/
def PciHeader.bus (h : PciHeader) : Nat :=
  getBits h.val 8 16

/-- PciHeader::device from pci.rs. -/
def PciHeader.device (h : PciHeader) : Nat :=
  getBits h.val 3 8

/-- PciHeader::function from pci.rs. -/
def PciHeader.function (h : PciHeader) : Nat :=
  getBits h.val 0 3

/-
Hardware model for one BAR register, following the hardware contract
stated in the spec: a memory BAR has a set of writable address bits (the
complement of size minus one), hardwired low type/flag bits, and latches
the writable address bits of every value written to it.  Reads return the
latched address bits together with the hardwired low bits.
-/

/-- One BAR register slot of the device. -/
structure BarSlot where
  addrMask : Nat
  flags : Nat
  addr : Nat
deriving DecidableEq

/-- Read the BAR register: latched address bits plus hardwired low bits. -/
def barRead (s : BarSlot) : Nat :=
  s.addr ||| s.flags

/-- Write the BAR register: the device latches the writable address bits
(bits 4 and up restricted to addrMask) of the written value. -/
def barWrite (s : BarSlot) (v : Nat) : BarSlot :=
  { s with addr := v &&& s.addrMask &&& 0xFFFFFFF0 }

/-- Configuration-space state seen by get_bar: the probed BAR slot and the
value of the next 32-bit slot (read at offset + 4 for 64-bit BARs; the
source never writes that slot in get_bar). -/
structure BarState where
  slot : BarSlot
  high : Nat
deriving DecidableEq

/-- Outcome of get_bar: either the Rust function returns a value, or the
size computation performs an overflowing shift (a panic in debug builds). -/
inductive GetBarOutcome where
  | shiftOverflow
  | ok (result : Option Bar)
deriving DecidableEq

/-- Result of running get_bar on a BarState: the outcome, the final
configuration-space state, and the values written to the probed slot in
order. -/
structure GetBarResult where
  outcome : GetBarOutcome
  state : BarState
  slotWrites : List Nat
deriving DecidableEq

/-- PciHeader::get_bar from pci.rs, as a state-passing function over the
probed slot.  Reads and writes at the BAR offset act on the slot; the read
at offset + 4 returns the high field.  The readback mask uses set_bits
with value 0, whose fits assertion holds trivially, hence setBitsT. -/
def get_bar (s : BarState) : GetBarResult :=
  let bar := barRead s.slot
  if Nat.testBit bar 0 = false then
    let prefetchable := Nat.testBit bar 3
    let address := getBits bar 4 32 <<< 4
    let s1 : BarState := { s with slot := barWrite s.slot 0xFFFFFFFF }
    let readback := barRead s1.slot
    let s2 : BarState := { s1 with slot := barWrite s1.slot address }
    let writes : List Nat := [0xFFFFFFFF, address]
    if readback = 0 then
      { outcome := GetBarOutcome.ok none, state := s2, slotWrites := writes }
    else
      let masked := setBitsT 32 readback 0 4 0
      match u32_shl1 (u32_trailing_zeros masked) with
      | none =>
          { outcome := GetBarOutcome.shiftOverflow, state := s2, slotWrites := writes }
      | some size =>
          match getBits bar 1 3 with
          | 0 =>
              { outcome := GetBarOutcome.ok (some (Bar.Memory32 address size prefetchable)),
                state := s2, slotWrites := writes }
          | 2 =>
              let address64 := setBitsT 64 address 32 64 (s2.high % 2 ^ 32)
              { outcome := GetBarOutcome.ok (some (Bar.Memory64 address64 size prefetchable)),
                state := s2, slotWrites := writes }
          | _ =>
              { outcome := GetBarOutcome.ok none, state := s2, slotWrites := writes }
  else
    { outcome := GetBarOutcome.ok (some (Bar.Io (getBits bar 2 32))), state := s, slotWrites := [] }

/-
Enumeration engine (fn init in pci.rs), modelled as the trace of
configuration-space reads and driver start calls it performs.  The
configuration space is an unchanging function from
(bus, device, function, register offset) to the 32-bit value read there;
reads have no side effect on it, so the per-driver re-reads of the vendor
and class registers return the same values as the first reads.
-/

/-- Configuration space contents: bus, device, function, offset to value. -/
def Cfg : Type :=
  Nat → Nat → Nat → Nat → Nat

/-- A registered driver: its capability predicate over the classified
vendor and device type (trait PciDeviceHandle::handles). -/
structure PciDriver where
  handles : Vendor → DeviceType → Bool

/-- One observable action of the enumeration engine: a configuration-space
read for a function, or a driver start call (driver registration index,
then bus, device, function). -/
inductive PciEvent where
  | read (bus dev fn off : Nat)
  | start (idx bus dev fn : Nat)
deriving DecidableEq

/-- Boolean test for start events. -/
def PciEvent.isStart : PciEvent → Bool
  | PciEvent.start _ _ _ _ => true
  | _ => false

/-- Vendor id of a function: get_vendor_id reads offset 0x00 and keeps
bits 0..16. -/
def vendorIdOf (cfg : Cfg) (b d f : Nat) : Nat :=
  getBits (cfg b d f 0x00) 0 16

/-- Device type of a function: get_device reads offset 0x08 and classifies
(bits 24..32, bits 16..24). -/
def deviceTypeOf (cfg : Cfg) (b d f : Nat) : DeviceType :=
  DeviceType.new (getBits (cfg b d f 0x08) 24 32) (getBits (cfg b d f 0x08) 16 24)

/-- The driver-dispatch loop of init, from registration index i on: for
each driver, get_vendor reads 0x00 and get_device reads 0x08 to evaluate
handles, and a start call follows when handles accepts. -/
def dispatchFrom (i : Nat) (ds : List PciDriver) (v : Vendor) (dt : DeviceType)
    (b d f : Nat) : List PciEvent :=
  match ds with
  | [] => []
  | drv :: rest =>
      [PciEvent.read b d f 0x00, PciEvent.read b d f 0x08]
        ++ (if drv.handles v dt then [PciEvent.start i b d f] else [])
        ++ dispatchFrom (i + 1) rest v dt b d f

/-- The body of the innermost loop of init for one candidate function:
read the vendor id at offset 0x00; the sentinel 0xFFFF skips the function;
otherwise the log line reads 0x08 (get_device) and 0x00 (get_vendor) and
the driver loop runs. -/
def perFunction (cfg : Cfg) (drivers : List PciDriver) (b d f : Nat) : List PciEvent :=
  if vendorIdOf cfg b d f = 0xFFFF then
    [PciEvent.read b d f 0x00]
  else
    [PciEvent.read b d f 0x00, PciEvent.read b d f 0x08, PciEvent.read b d f 0x00]
      ++ dispatchFrom 0 drivers (Vendor.new (vendorIdOf cfg b d f)) (deviceTypeOf cfg b d f) b d f

/-- The body of the device loop of init: has_multiple_functions reads
offset 0x0C of function 0 and tests bit 23 to choose 8 or 1 candidate
functions, then each candidate function is probed. -/
def perDevice (cfg : Cfg) (drivers : List PciDriver) (b d : Nat) : List PciEvent :=
  let functionCount := if Nat.testBit (cfg b d 0 0x0C) 23 then 8 else 1
  PciEvent.read b d 0 0x0C :: (List.range functionCount).flatMap (perFunction cfg drivers b d)

/-- The bus range of the sweep: the source loop header is 0..255, which in
Rust iterates 0, 1, ..., 254. -/
def sweptBuses : List Nat :=
  List.range 255

/-- The device range of the sweep: the source loop header is 0..32. -/
def sweptDevices : List Nat :=
  List.range 32

/-- The trace of fn init: the full brute-force sweep. -/
def initTrace (cfg : Cfg) (drivers : List PciDriver) : List PciEvent :=
  sweptBuses.flatMap fun b => sweptDevices.flatMap fun d => perDevice cfg drivers b d

/-
Concrete configuration-space states and drivers used by the closed
theorems and witnesses below.
-/

/-- A 4 KiB prefetchable 32-bit memory BAR at 0x12345000. -/
def c1State : BarState :=
  { slot := { addrMask := 0xFFFFF000, flags := 0x8, addr := 0x12345000 }, high := 0 }

/-- An I/O BAR whose register reads 0x1001 (base port 0x1000, bit 0 set). -/
def c2IoState : BarState :=
  { slot := { addrMask := 0, flags := 0x1, addr := 0x1000 }, high := 0 }

/-- An I/O BAR whose register reads exactly 0x00000001. -/
def c2IoZeroState : BarState :=
  { slot := { addrMask := 0, flags := 0x1, addr := 0 }, high := 0 }

/-- A memory BAR with no writable address bits and the prefetchable bit
hardwired: the probe readback is 0x00000008, nonzero with set bits only in
positions 0-3. -/
def c4State : BarState :=
  { slot := { addrMask := 0, flags := 0x8, addr := 0 }, high := 0 }

/-- Configuration space in which every read returns all-ones: every vendor
id reads as the absent sentinel 0xFFFF. -/
def cfgNone : Cfg := fun _ _ _ _ => 0xFFFFFFFF

/-- Configuration space in which every read returns zero: every function
is present with vendor id 0. -/
def cfgZero : Cfg := fun _ _ _ _ => 0

/-- A driver whose capability predicate accepts every function. -/
def alwaysDriver : PciDriver := { handles := fun _ _ => true }

/-
Helper lemmas.
-/

/-- A value below 2 ^ n has no set bit at position n or above. -/
theorem tb_lt (n : Nat) {x i : Nat} (h : x < 2 ^ n) (hni : n ≤ i) : Nat.testBit x i = false :=
  Nat.testBit_lt_two_pow (lt_of_lt_of_le h (Nat.pow_le_pow_right (by norm_num) hni))

/-- The address-bit region mask of barWrite, as a shifted all-ones block. -/
theorem maskF0 : (0xFFFFFFF0 : Nat) = (2 ^ 28 - 1) <<< 4 := by decide

/-- Bit i of 0xFFFFFFF0 is set exactly for 4 ≤ i < 32. -/
theorem tb_maskF0 (i : Nat) :
    Nat.testBit 0xFFFFFFF0 i = (decide (4 ≤ i) && decide (i - 4 < 28)) := by
  rw [maskF0]
  simp only [Nat.testBit_shiftLeft, Nat.testBit_two_pow_sub_one, ge_iff_le]

/-- A latched address confined to the writable address-bit region has no
set bit below position 4 or at position 32 and above. -/
theorem addr_low (A M : Nat) (ha : A &&& M &&& 0xFFFFFFF0 = A) :
    ∀ i, i < 4 ∨ 32 ≤ i → Nat.testBit A i = false := by
  intro i hi
  have h := congrArg (fun x => Nat.testBit x i) ha
  simp only [Nat.testBit_and, tb_maskF0] at h
  rcases hi with hi | hi
  · have h4 : decide (4 ≤ i) = false := by simp; omega
    rw [h4] at h
    simpa using h.symm
  · have h28 : decide (i - 4 < 28) = false := by simp; omega
    rw [h28] at h
    simpa using h.symm

/-- The address computed by get_bar from the initial register read equals
the latched address bits of the slot. -/
theorem probe_address_eq (A M F : Nat) (hf : F < 16) (ha : A &&& M &&& 0xFFFFFFF0 = A) :
    getBits (A ||| F) 4 32 <<< 4 = A := by
  apply Nat.eq_of_testBit_eq
  intro i
  simp only [getBits, Nat.testBit_shiftLeft, Nat.testBit_shiftRight, Nat.testBit_mod_two_pow,
    Nat.testBit_or, ge_iff_le]
  by_cases h4 : 4 ≤ i
  · have hi : 4 + (i - 4) = i := by omega
    rw [hi]
    by_cases h32 : i < 32
    · have hF : Nat.testBit F i = false := tb_lt 4 (by omega) (by omega)
      simp [h4, h32, hF]
    · have hA : Nat.testBit A i = false := addr_low A M ha i (Or.inr (by omega))
      simp [h32, hA]
  · have hA : Nat.testBit A i = false := addr_low A M ha i (Or.inl (by omega))
    simp [h4, hA]

/-- On the memory branch, get_bar always writes all-ones and then the
decoded address back to the slot, on every path. -/
theorem get_bar_memory (s : BarState) (hmem : Nat.testBit (barRead s.slot) 0 = false) :
    (get_bar s).slotWrites = [0xFFFFFFFF, getBits (barRead s.slot) 4 32 <<< 4]
    ∧ (get_bar s).state.slot
        = barWrite (barWrite s.slot 0xFFFFFFFF) (getBits (barRead s.slot) 4 32 <<< 4) := by
  simp only [get_bar, hmem]
  refine ⟨?_, ?_⟩ <;>
  · repeat' split
    all_goals first
      | rfl
      | simp_all

/-- Conjunction with a mask whose low k bits are all set leaves a value
below 2 ^ k unchanged. -/
theorem and_mask_of_lt (k : Nat) {x m : Nat} (hx : x < 2 ^ k)
    (hm : ∀ i, i < k → Nat.testBit m i = true) : x &&& m = x := by
  apply Nat.eq_of_testBit_eq
  intro i
  rw [Nat.testBit_and]
  by_cases hik : i < k
  · rw [hm i hik, Bool.and_true]
  · rw [tb_lt k hx (by omega), Bool.false_and]

/-- setBits reduced to its total form when the fits assertion holds. -/
theorem setBits_eq (w x a b v : Nat) (h : v % 2 ^ (b - a) = v) :
    setBits w x a b v
      = some ((x &&& ((2 ^ w - 1) ^^^ ((2 ^ (b - a) - 1) <<< a))) ||| (v <<< a)) := by
  unfold setBits setBitsT
  rw [if_pos h, h]

/-- Closed arithmetic form of the packed word built by PciHeader::new for
in-range inputs: function in bits 0..3, device in bits 3..8, bus in
bits 8..16. -/
theorem pciHeaderNew_val (b d f : Nat) (hb : b < 256) (hd : d < 32) (hf : f < 8) :
    PciHeader.new b d f = some { val := f + 8 * d + 256 * b } := by
  have h1 : f % 2 ^ (3 - 0) = f := Nat.mod_eq_of_lt (by omega)
  have h2 : d % 2 ^ (8 - 3) = d := Nat.mod_eq_of_lt (by omega)
  have h3 : b % 2 ^ (16 - 8) = b := Nat.mod_eq_of_lt (by omega)
  have h4 : (0 : Nat) % 2 ^ (32 - 16) = 0 := Nat.zero_mod _
  simp only [PciHeader.new, Option.bind_eq_bind]
  rw [setBits_eq 32 0 0 3 f h1]
  simp only [Option.some_bind, Nat.zero_and, Nat.zero_or, Nat.shiftLeft_zero]
  rw [setBits_eq 32 f 3 8 d h2]
  simp only [Option.some_bind]
  rw [setBits_eq 32 _ 8 16 b h3]
  simp only [Option.some_bind]
  rw [setBits_eq 32 _ 16 32 0 h4]
  simp only [Option.some_bind, Nat.zero_shiftLeft, Nat.or_zero]
  have e2 : f &&& ((2 ^ 32 - 1) ^^^ ((2 ^ (8 - 3) - 1) <<< 3)) = f := by
    refine and_mask_of_lt 3 (by omega) ?_
    intro i hi
    interval_cases i <;> decide
  rw [e2]
  have hd8 : d <<< 3 < 2 ^ 8 := by
    rw [Nat.shiftLeft_eq]
    omega
  have hor8 : f ||| d <<< 3 < 2 ^ 8 := Nat.or_lt_two_pow (by omega) hd8
  have e3 : (f ||| d <<< 3) &&& ((2 ^ 32 - 1) ^^^ ((2 ^ (16 - 8) - 1) <<< 8))
      = f ||| d <<< 3 := by
    refine and_mask_of_lt 8 hor8 ?_
    intro i hi
    interval_cases i <;> decide
  rw [e3]
  have hb16 : b <<< 8 < 2 ^ 16 := by
    rw [Nat.shiftLeft_eq]
    omega
  have hor16 : (f ||| d <<< 3) ||| b <<< 8 < 2 ^ 16 :=
    Nat.or_lt_two_pow (by omega) hb16
  have e4 : ((f ||| d <<< 3) ||| b <<< 8) &&& ((2 ^ 32 - 1) ^^^ ((2 ^ (32 - 16) - 1) <<< 16))
      = (f ||| d <<< 3) ||| b <<< 8 := by
    refine and_mask_of_lt 16 hor16 ?_
    intro i hi
    interval_cases i <;> decide
  rw [e4]
  have key : (f ||| d <<< 3) ||| b <<< 8 = f + 8 * d + 256 * b := by
    have k1 : f ||| d <<< 3 = 2 ^ 3 * d + f := by
      rw [Nat.shiftLeft_eq, Nat.lor_comm, Nat.mul_comm, ← Nat.mul_add_lt_is_or (by omega) d]
    have k2 : 2 ^ 3 * d + f < 2 ^ 8 := by norm_num; omega
    rw [k1, Nat.shiftLeft_eq, Nat.lor_comm, Nat.mul_comm,
      ← Nat.mul_add_lt_is_or k2 b]
    norm_num
    omega
  rw [key]
  rfl

/-- The bus getter recovers b from the packed word. -/
theorem bus_val (b d f : Nat) (hb : b < 256) (hd : d < 32) (hf : f < 8) :
    PciHeader.bus { val := f + 8 * d + 256 * b } = b := by
  unfold PciHeader.bus getBits
  rw [Nat.shiftRight_eq_div_pow]
  norm_num
  omega

/-- The device getter recovers d from the packed word. -/
theorem device_val (b d f : Nat) (hb : b < 256) (hd : d < 32) (hf : f < 8) :
    PciHeader.device { val := f + 8 * d + 256 * b } = d := by
  unfold PciHeader.device getBits
  rw [Nat.shiftRight_eq_div_pow]
  norm_num
  omega

/-- The function getter recovers f from the packed word. -/
theorem function_val (b d f : Nat) (hb : b < 256) (hd : d < 32) (hf : f < 8) :
    PciHeader.function { val := f + 8 * d + 256 * b } = f := by
  unfold PciHeader.function getBits
  rw [Nat.shiftRight_eq_div_pow]
  norm_num
  omega

/-- The device getter of any header value is at most 31: it extracts a
5-bit field. -/
theorem device_le (h : PciHeader) : PciHeader.device h ≤ 31 := by
  unfold PciHeader.device getBits
  rw [Nat.shiftRight_eq_div_pow]
  have hm : h.val % 2 ^ 8 < 2 ^ 8 := Nat.mod_lt _ (by norm_num)
  norm_num at hm ⊢
  omega

/-- The function getter of any header value is at most 7: it extracts a
3-bit field. -/
theorem function_le (h : PciHeader) : PciHeader.function h ≤ 7 := by
  unfold PciHeader.function getBits
  rw [Nat.shiftRight_eq_div_pow]
  have hm : h.val % 2 ^ 3 < 2 ^ 3 := Nat.mod_lt _ (by norm_num)
  norm_num at hm ⊢
  omega

/-- PciHeader::new panics (assertion failure of set_bits) when the
function argument does not fit into 3 bits. -/
theorem new_none_function (b d f : Nat) (hf : 8 ≤ f) : PciHeader.new b d f = none := by
  simp only [PciHeader.new, setBits, Option.bind_eq_bind]
  rw [if_neg]
  · rfl
  · have h := Nat.mod_lt f (show 0 < 2 ^ (3 - 0) by norm_num)
    norm_num at h ⊢
    omega

/-- PciHeader::new panics (assertion failure of set_bits) when the device
argument does not fit into 5 bits. -/
theorem new_none_device (b d f : Nat) (hf : f < 8) (hd : 32 ≤ d) :
    PciHeader.new b d f = none := by
  have h1 : f % 2 ^ (3 - 0) = f := Nat.mod_eq_of_lt (by omega)
  simp only [PciHeader.new, Option.bind_eq_bind]
  rw [setBits_eq 32 0 0 3 f h1]
  simp only [Option.some_bind]
  unfold setBits
  rw [if_neg]
  · rfl
  · have h := Nat.mod_lt d (show 0 < 2 ^ (8 - 3) by norm_num)
    norm_num at h ⊢
    omega

/-- Masking the low four bits of a readback that has set bits only in
positions 0-3 yields zero. -/
theorem masked_readback_zero (rb : Nat) (h : rb < 16) : setBitsT 32 rb 0 4 0 = 0 := by
  unfold setBitsT
  apply Nat.eq_of_testBit_eq
  intro i
  simp only [Nat.zero_mod, Nat.zero_shiftLeft, Nat.or_zero, Nat.zero_testBit,
    Nat.testBit_land, Nat.testBit_xor, Nat.testBit_shiftLeft, Nat.testBit_two_pow_sub_one,
    Nat.shiftLeft_zero, ge_iff_le]
  by_cases hi : i < 4
  · have h32 : i < 32 := by omega
    simp [hi, h32]
  · have hrb : Nat.testBit rb i = false := tb_lt 4 (by omega) (by omega)
    simp [hrb]

/-- The start events emitted by the driver-dispatch loop are exactly the
drivers whose predicate accepts, each paired with its registration index,
in registration order. -/
theorem dispatch_starts (ds : List PciDriver) (i : Nat) (v : Vendor) (dt : DeviceType)
    (b d f : Nat) :
    (dispatchFrom i ds v dt b d f).filter PciEvent.isStart
      = ((ds.enumFrom i).filter (fun p => p.2.handles v dt)).map
          (fun p => PciEvent.start p.1 b d f) := by
  induction ds generalizing i with
  | nil => rfl
  | cons drv rest ih =>
      simp only [dispatchFrom, List.enumFrom, List.filter_append, List.filter_cons]
      by_cases h : drv.handles v dt
      · simp [h, PciEvent.isStart, ih]
      · simp [h, PciEvent.isStart, ih]

/-- Every event of the driver-dispatch loop carries the dispatched
function address. -/
theorem mem_dispatchFrom (e : PciEvent) (ds : List PciDriver) (i : Nat) (v : Vendor)
    (dt : DeviceType) (b d f : Nat) (he : e ∈ dispatchFrom i ds v dt b d f) :
    (∃ off, e = PciEvent.read b d f off) ∨ (∃ j, e = PciEvent.start j b d f) := by
  induction ds generalizing i with
  | nil => cases he
  | cons drv rest ih =>
      simp only [dispatchFrom, List.mem_append, List.mem_cons] at he
      rcases he with ((h | h) | h) | h
      · exact Or.inl ⟨0x00, h⟩
      · rcases h with h | h
        · exact Or.inl ⟨0x08, h⟩
        · cases h
      · by_cases hh : drv.handles v dt
        · rw [if_pos hh] at h
          rcases List.mem_singleton.mp h with rfl
          exact Or.inr ⟨i, rfl⟩
        · rw [if_neg hh] at h
          cases h
      · exact ih (i + 1) h

/-- Every event emitted while handling one candidate function carries that
function address. -/
theorem mem_perFunction (e : PciEvent) (cfg : Cfg) (drivers : List PciDriver) (b d f : Nat)
    (he : e ∈ perFunction cfg drivers b d f) :
    (∃ off, e = PciEvent.read b d f off) ∨ (∃ j, e = PciEvent.start j b d f) := by
  unfold perFunction at he
  by_cases h : vendorIdOf cfg b d f = 0xFFFF
  · rw [if_pos h] at he
    rcases List.mem_singleton.mp he with rfl
    exact Or.inl ⟨0x00, rfl⟩
  · rw [if_neg h] at he
    simp only [List.mem_append, List.mem_cons] at he
    rcases he with (h1 | h1 | h1 | h1) | h1
    · exact Or.inl ⟨0x00, h1⟩
    · exact Or.inl ⟨0x08, h1⟩
    · exact Or.inl ⟨0x00, h1⟩
    · cases h1
    · exact mem_dispatchFrom e drivers 0 _ _ b d f h1

/-- Every event of the sweep comes from some swept bus and device, and is
either the function-count read at offset 0x0C of function 0 or an event of
one of at most eight candidate functions. -/
theorem mem_initTrace (e : PciEvent) (cfg : Cfg) (drivers : List PciDriver)
    (he : e ∈ initTrace cfg drivers) :
    ∃ B, B ∈ sweptBuses ∧ ∃ D, D ∈ sweptDevices ∧
      (e = PciEvent.read B D 0 0x0C ∨ ∃ F, F < 8 ∧ e ∈ perFunction cfg drivers B D F) := by
  unfold initTrace at he
  rw [List.mem_flatMap] at he
  obtain ⟨B, hB, he⟩ := he
  rw [List.mem_flatMap] at he
  obtain ⟨D, hD, he⟩ := he
  refine ⟨B, hB, D, hD, ?_⟩
  unfold perDevice at he
  rcases List.mem_cons.mp he with h | h
  · exact Or.inl h
  · rw [List.mem_flatMap] at h
    obtain ⟨F, hF, hmem⟩ := h
    rw [List.mem_range] at hF
    refine Or.inr ⟨F, ?_, hmem⟩
    split at hF <;> omega

/-
Claim theorems.
-/

/-- Claim C1: for every memory-type raw BAR value (bit 0 clear), get_bar
performs the probe sequence save, write all-ones, read back, restore, and
the restore write runs unconditionally on every path, so after get_bar the
readable address bits 4-31 of the BAR slot equal the value present before
the probe.  The hypotheses state the hardware model invariants: the
hardwired low flag bits occupy bits 0-3 and the latched address lies in
the writable address-bit region. -/
theorem c1_probe_restores (s : BarState)
    (hf : s.slot.flags < 16)
    (ha : s.slot.addr &&& s.slot.addrMask &&& 0xFFFFFFF0 = s.slot.addr)
    (hmem : Nat.testBit (barRead s.slot) 0 = false) :
    (get_bar s).slotWrites = [0xFFFFFFFF, getBits (barRead s.slot) 4 32 <<< 4]
    ∧ getBits (barRead (get_bar s).state.slot) 4 32 = getBits (barRead s.slot) 4 32 := by
  obtain ⟨hw, hs⟩ := get_bar_memory s hmem
  refine ⟨hw, ?_⟩
  rw [hs]
  have haddr : getBits (barRead s.slot) 4 32 <<< 4 = s.slot.addr := by
    unfold barRead
    exact probe_address_eq _ _ _ hf ha
  have hslot : barWrite (barWrite s.slot 0xFFFFFFFF) (getBits (barRead s.slot) 4 32 <<< 4)
      = s.slot := by
    simp only [barWrite, haddr]
    rw [ha]
  rw [hslot]

/-- Witness for claim C1 at a concrete 4 KiB memory BAR. -/
theorem c1_witness :
    (get_bar c1State).slotWrites = [0xFFFFFFFF, 0x12345000]
    ∧ getBits (barRead (get_bar c1State).state.slot) 4 32 = getBits (barRead c1State.slot) 4 32 := by
  have h := c1_probe_restores c1State (by decide) (by decide) (by decide)
  exact ⟨h.1.trans (by decide), h.2⟩

/-- Claim C2, counter-evidence: for the I/O raw BAR value 0x1001 the code
returns an I/O window at 0x400, which is the raw value shifted right by
two (get_bits 2..32), not the claimed raw value with its low two bits
masked off (0x1000); no write to the slot is performed, and raw value
0x00000001 does decode to an I/O window at address 0. -/
theorem c2_io_decode_bug :
    barRead c2IoState.slot = 0x1001
    ∧ get_bar c2IoState
        = { outcome := GetBarOutcome.ok (some (Bar.Io 0x400)), state := c2IoState,
            slotWrites := [] }
    ∧ (0x1001 : Nat) &&& 0xFFFFFFFC = 0x1000
    ∧ (0x400 : Nat) ≠ 0x1000
    ∧ get_bar c2IoZeroState
        = { outcome := GetBarOutcome.ok (some (Bar.Io 0)), state := c2IoZeroState,
            slotWrites := [] } := by
  decide

/-- Claim C3, counter-evidence: the bus sweep of init iterates the Rust
range 0..255, which visits buses 0 through 254 only: bus 255 is never
visited, the sweep covers 255 buses, and the worst case is
255 x 32 x 8 = 65280 function probes, not the claimed 65536. -/
theorem c3_bus_sweep_excludes_bus_255 :
    (255 : Nat) ∉ sweptBuses
    ∧ (254 : Nat) ∈ sweptBuses
    ∧ sweptBuses.length = 255
    ∧ sweptDevices.length = 32
    ∧ sweptBuses.length * sweptDevices.length * 8 = 65280
    ∧ (65280 : Nat) ≠ 65536 := by
  decide

/-- Claim C4: for a memory-type BAR slot whose post-probe readback is
nonzero with set bits only in positions 0-3, the size computation masks
the low 4 bits to zero, trailing_zeros returns 32, and 1 << 32 is an
overflowing u32 shift (a panic in debug builds), not a defined size. -/
theorem c4_size_shift_overflow (s : BarState)
    (hmem : Nat.testBit (barRead s.slot) 0 = false)
    (hrb0 : barRead (barWrite s.slot 0xFFFFFFFF) ≠ 0)
    (hrb16 : barRead (barWrite s.slot 0xFFFFFFFF) < 16) :
    u32_trailing_zeros (setBitsT 32 (barRead (barWrite s.slot 0xFFFFFFFF)) 0 4 0) = 32
    ∧ (get_bar s).outcome = GetBarOutcome.shiftOverflow := by
  have hmz := masked_readback_zero _ hrb16
  have htz : u32_trailing_zeros (0 : Nat) = 32 := by decide
  have hshl : u32_shl1 32 = none := by decide
  constructor
  · rw [hmz]
    exact htz
  · simp only [get_bar, hmem]
    repeat' split
    all_goals first
      | rfl
      | simp_all

/-- Witness for claim C4 at a concrete slot whose probe readback is 8. -/
theorem c4_witness :
    barRead (barWrite c4State.slot 0xFFFFFFFF) = 8
    ∧ u32_trailing_zeros (setBitsT 32 (barRead (barWrite c4State.slot 0xFFFFFFFF)) 0 4 0) = 32
    ∧ (get_bar c4State).outcome = GetBarOutcome.shiftOverflow := by
  have h := c4_size_shift_overflow c4State (by decide) (by decide) (by decide)
  exact ⟨by decide, h.1, h.2⟩

/-- Claim C5: a function whose vendor id reads as the sentinel 0xFFFF
contributes only that single vendor read to the trace of one candidate
function, the whole sweep never emits a driver start for it, and the only
reads the sweep ever performs at its address are the vendor read at 0x00
and, for function 0 only, the earlier header-type read at 0x0C. -/
theorem c5_sentinel_skips (cfg : Cfg) (drivers : List PciDriver) (b d f : Nat)
    (h : vendorIdOf cfg b d f = 0xFFFF) :
    perFunction cfg drivers b d f = [PciEvent.read b d f 0x00]
    ∧ (∀ i, PciEvent.start i b d f ∉ initTrace cfg drivers)
    ∧ (∀ off, PciEvent.read b d f off ∈ initTrace cfg drivers →
        off = 0x00 ∨ (f = 0 ∧ off = 0x0C)) := by
  have hperf : perFunction cfg drivers b d f = [PciEvent.read b d f 0x00] := by
    unfold perFunction
    rw [if_pos h]
  refine ⟨hperf, ?_, ?_⟩
  · intro i hmem
    obtain ⟨B, _, D, _, hcase⟩ := mem_initTrace _ cfg drivers hmem
    rcases hcase with hcase | ⟨F, _, hmem2⟩
    · simp at hcase
    · rcases mem_perFunction _ cfg drivers B D F hmem2 with ⟨off, hoff⟩ | ⟨j, hj⟩
      · simp at hoff
      · obtain ⟨rfl, rfl, rfl, rfl⟩ : j = i ∧ B = b ∧ D = d ∧ F = f := by
          injection hj with h1 h2 h3 h4
          exact ⟨h1.symm, h2.symm, h3.symm, h4.symm⟩
        rw [hperf] at hmem2
        simp at hmem2
  · intro off hmem
    obtain ⟨B, _, D, _, hcase⟩ := mem_initTrace _ cfg drivers hmem
    rcases hcase with hcase | ⟨F, _, hmem2⟩
    · injection hcase with h1 h2 h3 h4
      subst h1
      subst h2
      exact Or.inr ⟨h3, h4⟩
    · rcases mem_perFunction _ cfg drivers B D F hmem2 with ⟨off2, hoff⟩ | ⟨j, hj⟩
      · obtain ⟨rfl, rfl, rfl, rfl⟩ : B = b ∧ D = d ∧ F = f ∧ off2 = off := by
          injection hoff with h1 h2 h3 h4
          exact ⟨h1.symm, h2.symm, h3.symm, h4.symm⟩
        rw [hperf] at hmem2
        rcases List.mem_singleton.mp hmem2 with hread
        injection hread with h1 h2 h3 h4
        exact Or.inl h4
      · simp at hj

/-- Witness for claim C5 on the all-ones configuration space. -/
theorem c5_witness :
    vendorIdOf cfgNone 1 2 3 = 0xFFFF
    ∧ perFunction cfgNone [] 1 2 3 = [PciEvent.read 1 2 3 0x00]
    ∧ PciEvent.start 0 1 2 3 ∉ initTrace cfgNone [] := by
  have h := c5_sentinel_skips cfgNone [] 1 2 3 (by decide)
  exact ⟨by decide, h.1, h.2.1 0⟩

/-- Claim C6: for a present function, the start events emitted are exactly
those of the registered drivers whose predicate accepts the classified
vendor and device type, each with its registration index, in registration
order: every matching driver is started and the loop does not stop at the
first match. -/
theorem c6_all_matching_drivers_start (cfg : Cfg) (drivers : List PciDriver) (b d f : Nat)
    (h : vendorIdOf cfg b d f ≠ 0xFFFF) :
    (perFunction cfg drivers b d f).filter PciEvent.isStart
      = ((drivers.enumFrom 0).filter
          (fun p => p.2.handles (Vendor.new (vendorIdOf cfg b d f)) (deviceTypeOf cfg b d f))).map
          (fun p => PciEvent.start p.1 b d f) := by
  unfold perFunction
  rw [if_neg h, List.filter_append]
  have hreads :
      ([PciEvent.read b d f 0x00, PciEvent.read b d f 0x08,
        PciEvent.read b d f 0x00].filter PciEvent.isStart) = [] := rfl
  rw [hreads, List.nil_append]
  exact dispatch_starts drivers 0 _ _ b d f

/-- Witness for claim C6: two always-matching drivers both receive a start
for the same function, in registration order. -/
theorem c6_witness :
    vendorIdOf cfgZero 0 0 0 ≠ 0xFFFF
    ∧ (perFunction cfgZero [alwaysDriver, alwaysDriver] 0 0 0).filter PciEvent.isStart
        = [PciEvent.start 0 0 0 0, PciEvent.start 1 0 0 0] := by
  have h := c6_all_matching_drivers_start cfgZero [alwaysDriver, alwaysDriver] 0 0 0 (by decide)
  exact ⟨by decide, h.trans (by decide)⟩

/-- Claim C7: for every in-range triple (bus below 256, device below 32,
function below 8), constructing a PciHeader and reading it back through
bus, device and function returns the original triple. -/
theorem c7_function_address_roundtrip (b d f : Nat) (hb : b < 256) (hd : d < 32) (hf : f < 8) :
    ∃ h, PciHeader.new b d f = some h
      ∧ PciHeader.bus h = b ∧ PciHeader.device h = d ∧ PciHeader.function h = f := by
  exact ⟨{ val := f + 8 * d + 256 * b }, pciHeaderNew_val b d f hb hd hf,
    bus_val b d f hb hd hf, device_val b d f hb hd hf, function_val b d f hb hd hf⟩

/-- Witness for claim C7 at the triple (1, 2, 3). -/
theorem c7_witness :
    (1 : Nat) < 256 ∧ (2 : Nat) < 32 ∧ (3 : Nat) < 8
    ∧ ∃ h, PciHeader.new 1 2 3 = some h
        ∧ PciHeader.bus h = 1 ∧ PciHeader.device h = 2 ∧ PciHeader.function h = 3 :=
  ⟨by decide, by decide, by decide,
    c7_function_address_roundtrip 1 2 3 (by decide) (by decide) (by decide)⟩

/-- Claim C8: device-type classification is total over (base class,
sub class) pairs: every pair listed in the table maps to its documented
variant, every pair not in the table maps to Unknown, and in particular
(0x12, 0x34) maps to Unknown. -/
theorem c8_device_type_total :
    (∀ e ∈ deviceTypeTable, DeviceType.new e.1.1 e.1.2 = e.2)
    ∧ (∀ bc sc : Nat, (bc, sc) ∉ deviceTypeTable.map Prod.fst →
        DeviceType.new bc sc = DeviceType.Unknown)
    ∧ DeviceType.new 0x12 0x34 = DeviceType.Unknown := by
  refine ⟨by decide, ?_, by decide⟩
  intro bc sc h
  unfold DeviceType.new
  iterate 101 rw [if_neg (by intro hq; apply h; rw [hq]; decide)]

/-- Witness for claim C8 at a listed pair and an unlisted pair. -/
theorem c8_witness :
    DeviceType.new 0x00 0x01 = DeviceType.LegacyVgaCompatible
    ∧ ((0x13, 0x37) ∉ deviceTypeTable.map Prod.fst)
    ∧ DeviceType.new 0x13 0x37 = DeviceType.Unknown :=
  ⟨c8_device_type_total.1 ((0x00, 0x01), DeviceType.LegacyVgaCompatible) (by decide),
    by decide, c8_device_type_total.2.1 0x13 0x37 (by decide)⟩

/-- Claim C9: vendor classification maps 0x8086 to the Intel variant and
any other id such as 0x5555 to the catch-all variant holding the raw id,
and classification is lossless: the raw id is recoverable from every
classification result. -/
theorem c9_vendor_lossless :
    Vendor.new 0x8086 = Vendor.Intel
    ∧ Vendor.new 0x5555 = Vendor.Unknown 0x5555
    ∧ ∀ id : Nat, Vendor.rawId (Vendor.new id) = id := by
  refine ⟨by decide, by decide, ?_⟩
  intro id
  unfold Vendor.new
  split
  · rfl
  · rfl
  · rfl
  · rfl
  · rfl

/-- Claim C10, counter-evidence: the constructor does not silently
truncate out-of-range arguments; it hits the set_bits fits assertion (a
panic, modelled as none): function 8 is rejected, not truncated to 0, and
device 33 is rejected, not truncated to 1. -/
theorem c10_no_truncation :
    PciHeader.new 0 0 8 = none ∧ PciHeader.new 0 33 0 = none := by
  decide

/-- Claim C10 as amended: for u8 arguments, the constructor succeeds
exactly when device is at most 31 and function at most 7, rejecting
out-of-range values by the set_bits assertion instead of truncating; every
successfully constructed header decodes to device at most 31 and function
at most 7 with the bus preserved exactly. -/
theorem c10_constructor_bounds (b d f : Nat) (hb : b < 256) (hd : d < 256) (hf : f < 256) :
    ((PciHeader.new b d f).isSome ↔ (d < 32 ∧ f < 8))
    ∧ (∀ h, PciHeader.new b d f = some h →
        PciHeader.device h ≤ 31 ∧ PciHeader.function h ≤ 7 ∧ PciHeader.bus h = b) := by
  have hiff : (PciHeader.new b d f).isSome ↔ (d < 32 ∧ f < 8) := by
    constructor
    · intro hsome
      by_contra hcon
      rcases Nat.lt_or_ge f 8 with hf8 | hf8
      · rcases Nat.lt_or_ge d 32 with hd32 | hd32
        · exact hcon ⟨hd32, hf8⟩
        · rw [new_none_device b d f hf8 hd32] at hsome
          simp at hsome
      · rw [new_none_function b d f hf8] at hsome
        simp at hsome
    · intro hin
      rw [pciHeaderNew_val b d f hb hin.1 hin.2]
      rfl
  refine ⟨hiff, ?_⟩
  intro h hsome
  have hin : d < 32 ∧ f < 8 := hiff.mp (by rw [hsome]; rfl)
  have hval := pciHeaderNew_val b d f hb hin.1 hin.2
  rw [hval] at hsome
  have hh : h = { val := f + 8 * d + 256 * b } := (Option.some_inj.mp hsome).symm
  subst hh
  exact ⟨device_le _, function_le _, bus_val b d f hb hin.1 hin.2⟩

/-- Witness for the amended claim C10 at the in-range triple (1, 2, 3). -/
theorem c10_witness :
    (PciHeader.new 1 2 3).isSome
    ∧ (∀ h, PciHeader.new 1 2 3 = some h →
        PciHeader.device h ≤ 31 ∧ PciHeader.function h ≤ 7 ∧ PciHeader.bus h = 1) := by
  have hh := c10_constructor_bounds 1 2 3 (by decide) (by decide) (by decide)
  exact ⟨hh.1.mpr (by decide), hh.2⟩
